import Mathlib

/-!
Shallow embedding of the error-handling and validation core of the
gallifrey repository (TypeScript).  Two parallel error systems exist in
the source and are embedded in two namespaces:

* `Api` — `src/types/api.ts` (the `ErrorCode` enum, the flat `ApiError`
  value, type guards, factory functions) together with
  `src/types/validation.ts` (field validators and composite validators,
  which construct their errors with the `validationError` factory of
  `api.ts`).
* `Handler` — `src/utils/errorHandler.ts` (`AppError`, `parseError`,
  `parseSupabaseError`, `parseNetworkError`) and the async-operation
  state machine of `src/hooks/useErrorHandler.ts`.

Modelling conventions: JavaScript `Date` stamps are threaded as an
explicit `now : String` parameter; string length is modelled as
code-point count; optional object properties are `Option`; JavaScript
truthiness of an optional string is "present and non-empty".
-/

namespace Api

/-- The `ErrorCode` enum of `src/types/api.ts`, one constructor per member. -/
inductive ErrorCode where
  | NETWORK_ERROR
  | TIMEOUT_ERROR
  | CONNECTION_ERROR
  | UNAUTHORIZED
  | FORBIDDEN
  | SESSION_EXPIRED
  | INVALID_CREDENTIALS
  | VALIDATION_ERROR
  | INVALID_INPUT
  | MISSING_REQUIRED_FIELD
  | MEDIA_UPLOAD_FAILED
  | MEDIA_TOO_LARGE
  | INVALID_MEDIA_TYPE
  | MEDIA_PROCESSING_FAILED
  | DATABASE_ERROR
  | RECORD_NOT_FOUND
  | DUPLICATE_RECORD
  | RATE_LIMIT_EXCEEDED
  | CONTENT_MODERATION_FAILED
  | ALREADY_REACTED
  | UNKNOWN_ERROR
  | SERVER_ERROR
deriving DecidableEq, Repr, Fintype

/-- An error value of `src/types/api.ts`.  The source distributes the
kind-specific fields over the interfaces of the `ApiError` union; at
runtime the value is a single object, modelled here as one record whose
kind-specific properties are optional (or default-valued) and set by the
factory that builds the value. -/
structure ApiError where
  code : ErrorCode
  message : String
  timestamp : String
  field : Option String := none
  details : Option (List (String × List String)) := none
  retryable : Bool := false
  retry_after : Option Nat := none
  redirect_to_login : Bool := false
  max_size : Option Nat := none
  allowed_types : Option (List String) := none
  file_name : Option String := none
  query : Option String := none
  limit : Option Nat := none
  remaining : Option Nat := none
  original_error : Option String := none
deriving DecidableEq, Repr

/-- Type guard `isNetworkError` of `api.ts`. -/
def isNetworkError (error : ApiError) : Bool :=
  error.code = ErrorCode.NETWORK_ERROR ||
  error.code = ErrorCode.TIMEOUT_ERROR ||
  error.code = ErrorCode.CONNECTION_ERROR

/-- Type guard `isRateLimitError` of `api.ts`. -/
def isRateLimitError (error : ApiError) : Bool :=
  error.code = ErrorCode.RATE_LIMIT_EXCEEDED

/-- `isRetryableError` of `api.ts`. -/
def isRetryableError (error : ApiError) : Bool :=
  if isNetworkError error then error.retryable
  else if isRateLimitError error then true
  else error.code = ErrorCode.SERVER_ERROR

/-- Factory `validationError(message, field?, details?)` of `api.ts`;
`now` stands for `new Date().toISOString()`. -/
def validationError (now : String) (message : String)
    (field : Option String := none)
    (details : Option (List (String × List String)) := none) : ApiError :=
  { code := ErrorCode.VALIDATION_ERROR
    message := message
    field := field
    details := details
    timestamp := now }

/-- Factory `networkError(message, retryable = true, retry_after?)` of `api.ts`. -/
def networkError (now : String) (message : String) (retryable : Bool := true)
    (retry_after : Option Nat := none) : ApiError :=
  { code := ErrorCode.NETWORK_ERROR
    message := message
    retryable := retryable
    retry_after := retry_after
    timestamp := now }

/-- Factory `rateLimitError(message, retry_after, limit, remaining)` of `api.ts`. -/
def rateLimitError (now : String) (message : String) (retry_after : Nat)
    (limit : Nat) (remaining : Nat) : ApiError :=
  { code := ErrorCode.RATE_LIMIT_EXCEEDED
    message := message
    retry_after := some retry_after
    limit := some limit
    remaining := some remaining
    timestamp := now }

/-- The `Result<T, E>` discriminated union of `api.ts`:
`{success:true; data}` or `{success:false; error}`. -/
inductive Result (T : Type) (E : Type) where
  | ok (data : T)
  | err (error : E)
deriving DecidableEq, Repr

-- Bounds of `VALIDATION_CONSTRAINTS` in `src/types/validation.ts`.

def USERNAME_MIN_LENGTH : Nat := 3
def USERNAME_MAX_LENGTH : Nat := 30
def PASSWORD_MIN_LENGTH : Nat := 8
def PASSWORD_MAX_LENGTH : Nat := 128
def PASSWORD_REQUIRE_UPPERCASE : Bool := true
def PASSWORD_REQUIRE_LOWERCASE : Bool := true
def PASSWORD_REQUIRE_NUMBER : Bool := true
def PASSWORD_REQUIRE_SPECIAL : Bool := false
def POST_CONTENT_MIN_LENGTH : Nat := 1
def POST_CONTENT_MAX_LENGTH : Nat := 2000
def COMMENT_CONTENT_MIN_LENGTH : Nat := 1
def COMMENT_CONTENT_MAX_LENGTH : Nat := 500
def BIO_MAX_LENGTH : Nat := 160
def MAX_FILE_SIZE : Nat := 10 * 1024 * 1024
def MAX_VIDEO_SIZE : Nat := 50 * 1024 * 1024
def ALLOWED_IMAGE_TYPES : List String :=
  ["image/jpeg", "image/png", "image/webp", "image/heic"]
def ALLOWED_VIDEO_TYPES : List String :=
  ["video/mp4", "video/quicktime"]

/-- The JavaScript whitespace class (`\s`, and what `trim` removes),
restricted to its ASCII members; Unicode space separators are not
modelled. -/
def isJsWhitespace (c : Char) : Bool :=
  c = ' ' || c = '\t' || c = '\n' || c = '\r' || c = '\x0b' || c = '\x0c'

/-- JavaScript `String.prototype.trim`: strip leading and trailing
whitespace, implemented over the character list. -/
def jsTrim (s : String) : String :=
  ⟨((s.data.dropWhile isJsWhitespace).reverse.dropWhile isJsWhitespace).reverse⟩

/-- Split a character list at every occurrence of a separator character
(the semantics of `String.prototype.split` / `splitOn` with a one-character
separator). -/
def splitCharsOn (sep : Char) : List Char → List (List Char)
  | [] => [[]]
  | c :: t =>
    let rest := splitCharsOn sep t
    if c = sep then [] :: rest
    else
      match rest with
      | [] => [[c]]
      | h :: r => (c :: h) :: r

/-- The character class `[a-zA-Z0-9_]` of `USERNAME.PATTERN`. -/
def isUsernameChar (c : Char) : Bool :=
  c.isAlpha || c.isDigit || c = '_'

/-- The anchored username pattern `/^[a-zA-Z0-9_]+$/`. -/
def usernamePatternTest (s : String) : Bool :=
  !s.isEmpty && s.data.all isUsernameChar

/-- The anchored email pattern `/^[^\s@]+@[^\s@]+\.[^\s@]+$/`: exactly one
at-sign, a non-empty whitespace-free local part, and a whitespace-free
domain containing a dot that is neither its first nor its last
character. -/
def emailPatternTest (s : String) : Bool :=
  match splitCharsOn '@' s.data with
  | [loc, dom] =>
      !loc.isEmpty && loc.all (fun c => !isJsWhitespace c) &&
      dom.all (fun c => !isJsWhitespace c) &&
      ((dom.drop 1).dropLast.contains '.')
  | _ => false

/-- The character class of the optional special-character password rule,
`[!@#$%^&*(),.?":{}|<>]`. -/
def PASSWORD_SPECIAL_CHARS : String := "!@#$%^&*(),.?\":\x7b\x7d|<>"

/-- `validateEmail` of `validation.ts`. -/
def validateEmail (now : String) (email : String) : Result String ApiError :=
  if (jsTrim email).isEmpty then
    .err (validationError now "Email is required" (some "email"))
  else if !emailPatternTest email then
    .err (validationError now "Invalid email format" (some "email"))
  else
    .ok email

/-- `validateUsername` of `validation.ts`. -/
def validateUsername (now : String) (username : String) : Result String ApiError :=
  if (jsTrim username).isEmpty then
    .err (validationError now "Username is required" (some "username"))
  else if username.length < USERNAME_MIN_LENGTH then
    .err (validationError now "Username must be at least 3 characters" (some "username"))
  else if username.length > USERNAME_MAX_LENGTH then
    .err (validationError now "Username must not exceed 30 characters" (some "username"))
  else if !usernamePatternTest username then
    .err (validationError now "Username can only contain letters, numbers, and underscores"
      (some "username"))
  else
    .ok username

/-- `validatePassword` of `validation.ts`. -/
def validatePassword (now : String) (password : String) : Result String ApiError :=
  if password.isEmpty then
    .err (validationError now "Password is required" (some "password"))
  else if password.length < PASSWORD_MIN_LENGTH then
    .err (validationError now "Password must be at least 8 characters" (some "password"))
  else if password.length > PASSWORD_MAX_LENGTH then
    .err (validationError now "Password must not exceed 128 characters" (some "password"))
  else
    let errors : List String :=
      (if PASSWORD_REQUIRE_UPPERCASE && !password.data.any (fun c => 'A' ≤ c && c ≤ 'Z') then
        ["at least one uppercase letter"] else []) ++
      (if PASSWORD_REQUIRE_LOWERCASE && !password.data.any (fun c => 'a' ≤ c && c ≤ 'z') then
        ["at least one lowercase letter"] else []) ++
      (if PASSWORD_REQUIRE_NUMBER && !password.data.any (fun c => '0' ≤ c && c ≤ '9') then
        ["at least one number"] else []) ++
      (if PASSWORD_REQUIRE_SPECIAL && !password.data.any (PASSWORD_SPECIAL_CHARS.data.contains ·) then
        ["at least one special character"] else [])
    if errors.length > 0 then
      .err (validationError now ("Password must contain " ++ String.intercalate ", " errors)
        (some "password"))
    else
      .ok password

/-- `validatePostContent` of `validation.ts`. -/
def validatePostContent (now : String) (content : String) : Result String ApiError :=
  if (jsTrim content).isEmpty then
    .err (validationError now "Post content is required" (some "content"))
  else if content.length < POST_CONTENT_MIN_LENGTH then
    .err (validationError now "Post must be at least 1 character" (some "content"))
  else if content.length > POST_CONTENT_MAX_LENGTH then
    .err (validationError now "Post must not exceed 2000 characters" (some "content"))
  else
    .ok content

/-- `validateCommentContent` of `validation.ts`. -/
def validateCommentContent (now : String) (content : String) : Result String ApiError :=
  if (jsTrim content).isEmpty then
    .err (validationError now "Comment content is required" (some "content"))
  else if content.length < COMMENT_CONTENT_MIN_LENGTH then
    .err (validationError now "Comment must be at least 1 character" (some "content"))
  else if content.length > COMMENT_CONTENT_MAX_LENGTH then
    .err (validationError now "Comment must not exceed 500 characters" (some "content"))
  else
    .ok content

/-- `validateBio` of `validation.ts`. -/
def validateBio (now : String) (bio : String) : Result String ApiError :=
  if bio.length > BIO_MAX_LENGTH then
    .err (validationError now "Bio must not exceed 160 characters" (some "bio"))
  else
    .ok bio

/-- `validateMediaUrl` of `validation.ts`.  The `try { new URL(url) }`
probe calls the platform WHATWG URL parser, which is not part of this
repository; it is abstracted as the boolean oracle `urlOk`. -/
def validateMediaUrl (now : String) (urlOk : String → Bool) (url : String) :
    Result String ApiError :=
  if (jsTrim url).isEmpty then
    .err (validationError now "Media URL is required" (some "media_url"))
  else if !urlOk url then
    .err (validationError now "Invalid URL format" (some "media_url"))
  else
    .ok url

/-- `validatePasswordsMatch` of `validation.ts`. -/
def validatePasswordsMatch (now : String) (password : String) (confirmation : String) :
    Result Bool ApiError :=
  if password ≠ confirmation then
    .err (validationError now "Passwords do not match" (some "password_confirmation"))
  else
    .ok true

/-- `MediaUploadInput` of `validation.ts`. -/
structure MediaUploadInput where
  uri : String
  type : String
  name : String
  size : Nat
deriving DecidableEq, Repr

/-- `ValidatedMediaUploadInput` of `validation.ts` (the brands are
compile-time only, so the carried values are the raw primitives). -/
structure ValidatedMediaUploadInput where
  uri : String
  type : String
  name : String
  size : Nat
deriving DecidableEq, Repr

/-- `(maxSize / (1024 * 1024)).toFixed(2)` as used by `validateMediaFile`;
both size limits are whole numbers of megabytes, so the rendering always
ends in ".00". -/
def megabytesFixedTwo (maxSize : Nat) : String :=
  toString (maxSize / (1024 * 1024)) ++ ".00"

/-- `validateMediaFile` of `validation.ts`: the size bound (video limit
when the MIME type is in the video allow-list, image limit otherwise),
then the combined allow-list, then the URI via `validateMediaUrl`. -/
def validateMediaFile (now : String) (urlOk : String → Bool)
    (input : MediaUploadInput) : Result ValidatedMediaUploadInput ApiError :=
  let isVideo := ALLOWED_VIDEO_TYPES.contains input.type
  let maxSize := if isVideo then MAX_VIDEO_SIZE else MAX_FILE_SIZE
  if input.size > maxSize then
    .err (validationError now
      ("File size must not exceed " ++ megabytesFixedTwo maxSize ++ "MB") (some "media"))
  else if !((ALLOWED_IMAGE_TYPES ++ ALLOWED_VIDEO_TYPES).contains input.type) then
    .err (validationError now "Invalid file type. Only images and videos are allowed."
      (some "media"))
  else
    match validateMediaUrl now urlOk input.uri with
    | .err e => .err e
    | .ok u => .ok { uri := u, type := input.type, name := input.name, size := input.size }

/-- The `media_type` discriminant `'image' | 'video'`. -/
inductive MediaType where
  | image
  | video
deriving DecidableEq, Repr

/-- `CreatePostInput` of `validation.ts`; optional properties are `Option`. -/
structure CreatePostInput where
  content : String
  media_url : Option String := none
  media_type : Option MediaType := none
  thumbnail_url : Option String := none
deriving DecidableEq, Repr

/-- `ValidatedCreatePostInput` of `validation.ts`. -/
structure ValidatedCreatePostInput where
  content : String
  media_url : Option String := none
  media_type : Option MediaType := none
  thumbnail_url : Option String := none
deriving DecidableEq, Repr

/-- JavaScript truthiness of an optional string property (`if (input.media_url)`):
present and non-empty. -/
def truthyString : Option String → Bool
  | some s => !s.isEmpty
  | none => false

/-- `validateCreatePostInput` of `validation.ts`: content first, then —
only when `media_url` is truthy — the media URL, the copied
`media_type`, and the optional thumbnail URL. -/
def validateCreatePostInput (now : String) (urlOk : String → Bool)
    (input : CreatePostInput) : Result ValidatedCreatePostInput ApiError :=
  match validatePostContent now input.content with
  | .err e => .err e
  | .ok c =>
    if truthyString input.media_url then
      match validateMediaUrl now urlOk (input.media_url.getD "") with
      | .err e => .err e
      | .ok u =>
        if truthyString input.thumbnail_url then
          match validateMediaUrl now urlOk (input.thumbnail_url.getD "") with
          | .err e => .err e
          | .ok t =>
            .ok { content := c, media_url := some u, media_type := input.media_type,
                  thumbnail_url := some t }
        else
          .ok { content := c, media_url := some u, media_type := input.media_type }
    else
      .ok { content := c }

end Api

namespace Handler

/-- The `ErrorCode` enum of `src/utils/errorHandler.ts` (distinct from the
enum of the same name in `api.ts`). -/
inductive ErrorCode where
  | NETWORK_ERROR
  | API_ERROR
  | TIMEOUT_ERROR
  | UNAUTHORIZED
  | FORBIDDEN
  | SESSION_EXPIRED
  | INVALID_CREDENTIALS
  | VALIDATION_ERROR
  | INVALID_EMAIL
  | INVALID_PASSWORD
  | CONTENT_TOO_LONG
  | CONTENT_EMPTY
  | MEDIA_UPLOAD_FAILED
  | MEDIA_TOO_LARGE
  | INVALID_MEDIA_TYPE
  | MEDIA_COMPRESSION_FAILED
  | DATABASE_ERROR
  | NOT_FOUND
  | DUPLICATE_ENTRY
  | UNKNOWN_ERROR
deriving DecidableEq, Repr, Fintype

/-- The `ErrorSeverity` enum of `errorHandler.ts`. -/
inductive ErrorSeverity where
  | INFO
  | WARNING
  | ERROR
  | CRITICAL
deriving DecidableEq, Repr

/-- Whether the first character list occurs at the head of the second. -/
def charsStartWith : List Char → List Char → Bool
  | [], _ => true
  | _ :: _, [] => false
  | p :: ps, c :: cs => p = c && charsStartWith ps cs

/-- Whether the first character list occurs contiguously anywhere in the
second. -/
def charsHaveSublist (pat : List Char) : List Char → Bool
  | [] => pat.isEmpty
  | c :: t => charsStartWith pat (c :: t) || charsHaveSublist pat t

/-- JavaScript `String.prototype.includes`: substring containment,
case-sensitive. -/
def includes (s pat : String) : Bool :=
  charsHaveSublist pat.data s.data

/-- The `AppError` class of `errorHandler.ts`.  The free-form `metadata`
record is modelled by the properties the parsers of this file actually
store in it (`context`, the backend `code`, the backend `details`); the
wrapped original JavaScript `Error` is kept as its message; constructor
side effects (timestamp stamping, console logging, stack capture) have
no observable state here and are not modelled. -/
structure AppError where
  message : String
  code : ErrorCode
  severity : ErrorSeverity
  isOperational : Bool := true
  context : Option String := none
  metaCode : Option String := none
  metaDetails : Option String := none
  originalMessage : Option String := none
deriving DecidableEq, Repr

/-- The `networkError` factory of `errorHandler.ts`. -/
def networkError (message : String := "Network connection failed")
    (originalMessage : Option String := none)
    (context : Option String := none) : AppError :=
  { message := message
    code := ErrorCode.NETWORK_ERROR
    severity := ErrorSeverity.ERROR
    isOperational := true
    context := context
    originalMessage := originalMessage }

/-- The shapes `parseError` distinguishes in a caught JavaScript value:
an `AppError` instance, an `Error` instance (kept as its message), a
plain string, a non-error object with a `message` property, and
anything else. -/
inductive Thrown where
  | app (e : AppError)
  | exc (message : String)
  | str (s : String)
  | objWithMessage (message : String)
  | other
deriving Repr

/-- `parseError` of `errorHandler.ts`. -/
def parseError (error : Thrown) (context : Option String := none) : AppError :=
  match error with
  | .app e => e
  | .exc m =>
      { message := m, code := ErrorCode.UNKNOWN_ERROR, severity := ErrorSeverity.ERROR,
        isOperational := true, context := context, originalMessage := some m }
  | .str s =>
      { message := s, code := ErrorCode.UNKNOWN_ERROR, severity := ErrorSeverity.ERROR,
        isOperational := true, context := context }
  | .objWithMessage m =>
      { message := m, code := ErrorCode.UNKNOWN_ERROR, severity := ErrorSeverity.ERROR,
        isOperational := true, context := context }
  | .other =>
      { message := "An unknown error occurred", code := ErrorCode.UNKNOWN_ERROR,
        severity := ErrorSeverity.ERROR, isOperational := true, context := context }

/-- A raw backend failure as consumed by `parseSupabaseError`: optional
`message`, `code`, and `details` properties. -/
structure SupabaseFailure where
  message : Option String := none
  code : Option String := none
  details : Option String := none
deriving DecidableEq, Repr

/-- `parseSupabaseError` of `errorHandler.ts`, with its source branch
order: credential phrase, JWT/token phrase, unique-constraint code
`23505`, foreign-key code `23503`, permission phrase, default database
error. -/
def parseSupabaseError (error : SupabaseFailure)
    (context : Option String := none) : AppError :=
  let message := error.message.getD "Database operation failed"
  if includes message "Invalid login credentials" then
    { message := "Invalid email or password", code := ErrorCode.INVALID_CREDENTIALS,
      severity := ErrorSeverity.INFO, isOperational := true, context := context,
      metaCode := error.code, metaDetails := error.details }
  else if includes message "JWT" || includes message "token" then
    { message := "Your session has expired. Please log in again.",
      code := ErrorCode.SESSION_EXPIRED, severity := ErrorSeverity.WARNING,
      isOperational := true, context := context,
      metaCode := error.code, metaDetails := error.details }
  else if error.code = some "23505" then
    { message := "This item already exists", code := ErrorCode.DUPLICATE_ENTRY,
      severity := ErrorSeverity.INFO, isOperational := true, context := context,
      metaCode := error.code, metaDetails := error.details }
  else if error.code = some "23503" then
    { message := "Referenced item not found", code := ErrorCode.NOT_FOUND,
      severity := ErrorSeverity.ERROR, isOperational := true, context := context,
      metaCode := error.code, metaDetails := error.details }
  else if includes message "permission denied" || includes message "RLS" then
    { message := "You do not have permission to perform this action",
      code := ErrorCode.FORBIDDEN, severity := ErrorSeverity.WARNING,
      isOperational := true, context := context,
      metaCode := error.code, metaDetails := error.details }
  else
    { message := message, code := ErrorCode.DATABASE_ERROR,
      severity := ErrorSeverity.ERROR, isOperational := true, context := context,
      metaCode := error.code, metaDetails := error.details }

/-- A raw network-layer failure as consumed by `parseNetworkError`: an
arbitrary value whose optional `message` property is what the function
inspects (`error?.message?.includes(...)`). -/
structure NetFailure where
  message : Option String := none
deriving DecidableEq, Repr

/-- `parseNetworkError` of `errorHandler.ts`: "timeout" substring first,
then "Network request failed" (case-sensitive), else the `networkError`
factory fallback. -/
def parseNetworkError (error : NetFailure)
    (context : Option String := none) : AppError :=
  if error.message.any (includes · "timeout") then
    { message := "Request timed out. Please check your connection and try again.",
      code := ErrorCode.TIMEOUT_ERROR, severity := ErrorSeverity.ERROR,
      isOperational := true, context := context }
  else if error.message.any (includes · "Network request failed") then
    { message := "Unable to connect. Please check your internet connection.",
      code := ErrorCode.NETWORK_ERROR, severity := ErrorSeverity.ERROR,
      isOperational := true, context := context }
  else
    networkError "A network error occurred. Please try again." error.message context

/-- The `ErrorState` of `useErrorHandler` in `src/hooks/useErrorHandler.ts`. -/
structure ErrorState where
  error : Option AppError := none
  hasError : Bool := false
deriving DecidableEq, Repr

/-- `clearError` of `useErrorHandler`: the state it stores. -/
def clearedErrorState : ErrorState :=
  { error := none, hasError := false }

/-- The state stored by `handleError` of `useErrorHandler`: the caught
value is normalized with `parseError` and recorded with `hasError`
set (alert display and the `onError` callback are presentation side
effects with no state here). -/
def handleErrorState (error : Thrown) (context : Option String := none) : ErrorState :=
  { error := some (parseError error context), hasError := true }

/-- The state owned by `useAsyncOperation`. -/
structure AsyncOpState (T : Type) where
  loading : Bool := false
  data : Option T := none
  errorState : ErrorState := clearedErrorState

/-- One run of `useAsyncOperation.execute`: set loading, clear the error,
await the operation — whose outcome is either a produced value or a
thrown value (`Except.error` is the `catch` branch) — then store the
value on success or the normalized error on failure, and drop loading in
the `finally` block.  The function is total in the thrown value: nothing
is re-raised to the caller. -/
def execute {T : Type} (st : AsyncOpState T) (outcome : Except Thrown T)
    (context : Option String := none) : AsyncOpState T :=
  match outcome with
  | .ok v =>
      { loading := false, data := some v, errorState := clearedErrorState }
  | .error thrown =>
      { loading := false, data := st.data, errorState := handleErrorState thrown context }

end Handler

/-! ## Claim theorems -/

/-- The twenty `ErrorCode` members corresponding to the twenty kinds the
specification lists for its closed `ErrorKind` enumeration (network,
timeout, connection, unauthorized, forbidden, session-expired,
invalid-credentials, validation, invalid-input, missing-field,
media-upload-failed, media-too-large, invalid-media-type,
media-processing-failed, database, not-found, duplicate, rate-limited,
unknown, server). -/
def errorCodeSpecTwenty : List Api.ErrorCode :=
  [.NETWORK_ERROR, .TIMEOUT_ERROR, .CONNECTION_ERROR,
   .UNAUTHORIZED, .FORBIDDEN, .SESSION_EXPIRED, .INVALID_CREDENTIALS,
   .VALIDATION_ERROR, .INVALID_INPUT, .MISSING_REQUIRED_FIELD,
   .MEDIA_UPLOAD_FAILED, .MEDIA_TOO_LARGE, .INVALID_MEDIA_TYPE,
   .MEDIA_PROCESSING_FAILED,
   .DATABASE_ERROR, .RECORD_NOT_FOUND, .DUPLICATE_RECORD,
   .RATE_LIMIT_EXCEEDED, .UNKNOWN_ERROR, .SERVER_ERROR]

/-- Every member of the `ErrorCode` enum of `api.ts`. -/
def errorCodeAll : List Api.ErrorCode :=
  [.NETWORK_ERROR, .TIMEOUT_ERROR, .CONNECTION_ERROR,
   .UNAUTHORIZED, .FORBIDDEN, .SESSION_EXPIRED, .INVALID_CREDENTIALS,
   .VALIDATION_ERROR, .INVALID_INPUT, .MISSING_REQUIRED_FIELD,
   .MEDIA_UPLOAD_FAILED, .MEDIA_TOO_LARGE, .INVALID_MEDIA_TYPE,
   .MEDIA_PROCESSING_FAILED,
   .DATABASE_ERROR, .RECORD_NOT_FOUND, .DUPLICATE_RECORD,
   .RATE_LIMIT_EXCEEDED, .CONTENT_MODERATION_FAILED, .ALREADY_REACTED,
   .UNKNOWN_ERROR, .SERVER_ERROR]

/-- Claim C2: `isRetryableError` returns true exactly for network-family
errors (network, timeout, connection codes) whose retryable flag is set,
rate-limited errors, and server errors; and the rate-limit error built by
`rateLimitError("slow down", 30, 100, 0)` carries `retry_after = 30` and
is retryable. -/
theorem isRetryableError_iff_network_retryable_or_rate_limited_or_server :
    (∀ e : Api.ApiError,
      Api.isRetryableError e = true ↔
        (((e.code = Api.ErrorCode.NETWORK_ERROR ∨ e.code = Api.ErrorCode.TIMEOUT_ERROR ∨
            e.code = Api.ErrorCode.CONNECTION_ERROR) ∧ e.retryable = true) ∨
          e.code = Api.ErrorCode.RATE_LIMIT_EXCEEDED ∨
          e.code = Api.ErrorCode.SERVER_ERROR)) ∧
    (∀ now : String,
      (Api.rateLimitError now "slow down" 30 100 0).retry_after = some 30 ∧
      Api.isRetryableError (Api.rateLimitError now "slow down" 30 100 0) = true) := by
  constructor
  · intro e
    cases h : e.code <;>
      simp [Api.isRetryableError, Api.isNetworkError, Api.isRateLimitError, h]
  · intro now
    exact ⟨rfl, rfl⟩

/-- Claim C3: one run of `useAsyncOperation.execute` whose operation
throws the string "boom" stores a current error of unknown kind with
message exactly "boom" (nothing propagates: `execute` is total in the
thrown value); in general a thrown value is normalized by `parseError`
and stored with the error flag set, and a successful run stores the
produced value with the error state clear. -/
theorem execute_contains_thrown_values_in_error_state :
    ∀ (T : Type) (st : Handler.AsyncOpState T) (ctx : Option String)
      (t : Handler.Thrown) (v : T),
      ((Handler.execute st (.error (.str "boom")) ctx).errorState.error =
          some (Handler.parseError (.str "boom") ctx) ∧
        (Handler.parseError (Handler.Thrown.str "boom") ctx).code =
          Handler.ErrorCode.UNKNOWN_ERROR ∧
        (Handler.parseError (Handler.Thrown.str "boom") ctx).message = "boom" ∧
        (Handler.execute st (.error (.str "boom")) ctx).errorState.hasError = true) ∧
      ((Handler.execute st (.error t) ctx).errorState.error =
          some (Handler.parseError t ctx) ∧
        (Handler.execute st (.error t) ctx).errorState.hasError = true) ∧
      ((Handler.execute st (.ok v) ctx).data = some v ∧
        (Handler.execute st (.ok v) ctx).errorState = Handler.clearedErrorState) := by
  intro T st ctx t v
  exact ⟨⟨rfl, rfl, rfl, rfl⟩, ⟨rfl, rfl⟩, ⟨rfl, rfl⟩⟩

/-- Claim C4, counterexample: the `ErrorCode` enum of `api.ts` is not
exhausted by the twenty kinds the specification lists —
`CONTENT_MODERATION_FAILED` (and `ALREADY_REACTED`) are members too. -/
theorem errorCode_not_exactly_the_spec_twenty :
    ¬ (∀ c : Api.ErrorCode, c ∈ errorCodeSpecTwenty) := by
  decide

/-- Claim C4, amended: the `ErrorCode` enum of `api.ts` is closed and
consists of exactly twenty-two members — the twenty kinds the
specification lists plus `CONTENT_MODERATION_FAILED` and
`ALREADY_REACTED`. -/
theorem errorCode_members_exactly_twenty_two :
    (∀ c : Api.ErrorCode, c ∈ errorCodeAll) ∧
    errorCodeAll.Nodup ∧ errorCodeAll.length = 22 ∧
    errorCodeSpecTwenty.Nodup ∧ errorCodeSpecTwenty.length = 20 ∧
    (∀ c ∈ errorCodeSpecTwenty, c ∈ errorCodeAll) ∧
    Api.ErrorCode.CONTENT_MODERATION_FAILED ∉ errorCodeSpecTwenty ∧
    Api.ErrorCode.ALREADY_REACTED ∉ errorCodeSpecTwenty := by
  decide

/-- Claim C1, counterexample: the code table of `parseSupabaseError` does
not govern regardless of the message text — the JWT/token message phrase
is checked first, so code "23505" with message "JWT expired" is
classified session-expired, not duplicate. -/
theorem parseSupabaseError_auth_phrase_overrides_code :
    Handler.includes "JWT expired" "JWT" = true ∧
    (Handler.parseSupabaseError { message := some "JWT expired", code := some "23505" }).code =
      Handler.ErrorCode.SESSION_EXPIRED ∧
    (Handler.parseSupabaseError { message := some "JWT expired", code := some "23505" }).code ≠
      Handler.ErrorCode.DUPLICATE_ENTRY := by
  decide

/-- Claim C1, amended: for a backend failure whose message contains none
of the authentication phrases ("Invalid login credentials", "JWT",
"token") — which are matched first — the code table governs regardless of
the rest of the message: code "23505" yields the duplicate kind and code
"23503" yields the not-found kind; in particular
`{code:"23505", message:"duplicate key"}` yields the duplicate kind. -/
theorem parseSupabaseError_code_table_after_auth_phrases :
    (∀ (e : Handler.SupabaseFailure) (ctx : Option String),
      Handler.includes (e.message.getD "Database operation failed")
        "Invalid login credentials" = false →
      Handler.includes (e.message.getD "Database operation failed") "JWT" = false →
      Handler.includes (e.message.getD "Database operation failed") "token" = false →
      (e.code = some "23505" →
        (Handler.parseSupabaseError e ctx).code = Handler.ErrorCode.DUPLICATE_ENTRY) ∧
      (e.code = some "23503" →
        (Handler.parseSupabaseError e ctx).code = Handler.ErrorCode.NOT_FOUND)) ∧
    (Handler.parseSupabaseError { message := some "duplicate key", code := some "23505" }).code =
      Handler.ErrorCode.DUPLICATE_ENTRY := by
  constructor
  · intro e ctx h1 h2 h3
    constructor
    · intro hc
      simp [Handler.parseSupabaseError, h1, h2, h3, hc]
    · intro hc
      simp [Handler.parseSupabaseError, h1, h2, h3, hc]
  · decide

/-- Witness for the amended C1 theorem at concrete backend failures. -/
theorem parseSupabaseError_code_table_witness :
    (Handler.parseSupabaseError { message := some "duplicate key", code := some "23505" } none).code = Handler.ErrorCode.DUPLICATE_ENTRY ∧
    (Handler.parseSupabaseError { message := some "foreign key violation", code := some "23503" } none).code = Handler.ErrorCode.NOT_FOUND := by
  refine ⟨?_, ?_⟩
  · exact (parseSupabaseError_code_table_after_auth_phrases.1
      { message := some "duplicate key", code := some "23505" } none
      (by decide) (by decide) (by decide)).1 rfl
  · exact (parseSupabaseError_code_table_after_auth_phrases.1
      { message := some "foreign key violation", code := some "23503" } none
      (by decide) (by decide) (by decide)).2 rfl

/-- Claim C6, counterexample: a message containing the phrase
"network request failed" is not always classified as network kind — the
"timeout" substring is checked first, so a message containing both is
classified timeout. -/
theorem parseNetworkError_network_phrase_with_timeout :
    Handler.includes "network request failed: timeout" "network request failed" = true ∧
    (Handler.parseNetworkError { message := some "network request failed: timeout" }).code =
      Handler.ErrorCode.TIMEOUT_ERROR ∧
    (Handler.parseNetworkError { message := some "network request failed: timeout" }).code ≠
      Handler.ErrorCode.NETWORK_ERROR := by
  decide

/-- Claim C6, amended: a message containing "timeout" yields the timeout
kind; a message containing "network request failed" but not "timeout"
yields the network kind (via the case-sensitive branch or the
`networkError` fallback, both network-coded).  The handler `AppError`
carries no retryable flag; the retryable classification lives in
`api.ts`, whose `networkError` factory sets `retryable = true` by
default. -/
theorem parseNetworkError_substring_precedence :
    (∀ (m : String) (ctx : Option String),
      (Handler.includes m "timeout" = true →
        (Handler.parseNetworkError { message := some m } ctx).code =
          Handler.ErrorCode.TIMEOUT_ERROR) ∧
      (Handler.includes m "network request failed" = true →
        Handler.includes m "timeout" = false →
        (Handler.parseNetworkError { message := some m } ctx).code =
          Handler.ErrorCode.NETWORK_ERROR)) ∧
    (∀ (now message : String), (Api.networkError now message).retryable = true) := by
  constructor
  · intro m ctx
    constructor
    · intro h
      simp [Handler.parseNetworkError, h]
    · intro hn ht
      rcases h2 : Handler.includes m "Network request failed" with _ | _ <;>
        simp [Handler.parseNetworkError, ht, h2, Handler.networkError]
  · intro now message
    rfl

/-- Witness for the amended C6 theorem at concrete messages. -/
theorem parseNetworkError_substring_witness :
    (Handler.parseNetworkError { message := some "connection timeout" } none).code =
      Handler.ErrorCode.TIMEOUT_ERROR ∧
    (Handler.parseNetworkError { message := some "xnetwork request failed" } none).code =
      Handler.ErrorCode.NETWORK_ERROR :=
  ⟨(parseNetworkError_substring_precedence.1 "connection timeout" none).1 (by decide),
   (parseNetworkError_substring_precedence.1 "xnetwork request failed" none).2
     (by decide) (by decide)⟩

/-- The success arm of a string validator carries exactly the given input
(failure arms are unconstrained here). -/
def carriesInput (s : String) : Api.Result String Api.ApiError → Prop
  | .ok v => v = s
  | .err _ => True

/-- Claim C5: every string field validator certifies without
transforming — whenever it returns the success arm, the carried value is
the input string itself. -/
theorem validators_certify_unmodified_input :
    ∀ (now s : String) (urlOk : String → Bool),
      carriesInput s (Api.validateEmail now s) ∧
      carriesInput s (Api.validateUsername now s) ∧
      carriesInput s (Api.validatePassword now s) ∧
      carriesInput s (Api.validatePostContent now s) ∧
      carriesInput s (Api.validateCommentContent now s) ∧
      carriesInput s (Api.validateBio now s) ∧
      carriesInput s (Api.validateMediaUrl now urlOk s) := by
  intro now s urlOk
  refine ⟨?_, ?_, ?_, ?_, ?_, ?_, ?_⟩ <;>
    · first
        | unfold Api.validateEmail
        | unfold Api.validateUsername
        | unfold Api.validatePassword
        | unfold Api.validatePostContent
        | unfold Api.validateCommentContent
        | unfold Api.validateBio
        | unfold Api.validateMediaUrl
      repeat' split
      all_goals first | exact trivial | rfl

/-- Claim C7: `validateUsername` enforces the username rule row —
required, length 3 to 30, letters/digits/underscores only.  "ab" fails
with a validation error on field "username" whose message mentions
"at least 3"; "john_doe1" succeeds; in general, the validator succeeds
exactly on inputs that are non-blank, within the length bounds, and made
of username characters only. -/
theorem validateUsername_enforces_rule_row :
    ∀ now : String,
      Api.validateUsername now "ab" =
        .err (Api.validationError now "Username must be at least 3 characters"
          (some "username")) ∧
      Handler.includes "Username must be at least 3 characters" "at least 3" = true ∧
      Api.validateUsername now "john_doe1" = .ok "john_doe1" ∧
      (∀ s : String, Api.validateUsername now s = .ok s ↔
        (Api.jsTrim s ≠ "" ∧ Api.USERNAME_MIN_LENGTH ≤ s.length ∧
          s.length ≤ Api.USERNAME_MAX_LENGTH ∧ s.data.all Api.isUsernameChar = true)) := by
  intro now
  refine ⟨rfl, by decide, rfl, ?_⟩
  intro s
  constructor
  · intro h
    unfold Api.validateUsername at h
    split at h
    · simp at h
    · split at h
      · simp at h
      · split at h
        · simp at h
        · split at h
          · simp at h
          · rename_i h1 h2 h3 h4
            refine ⟨?_, ?_, ?_, ?_⟩
            · intro he
              exact h1 (by rw [he]; rfl)
            · simp only [Api.USERNAME_MIN_LENGTH] at h2 ⊢
              omega
            · simp only [Api.USERNAME_MAX_LENGTH] at h3 ⊢
              omega
            · have h4' : Api.usernamePatternTest s = true := by
                simpa using h4
              have hparts : s.isEmpty = false ∧ ∀ x ∈ s.data, Api.isUsernameChar x = true := by
                simpa [Api.usernamePatternTest, List.all_eq_true] using h4'
              simpa [List.all_eq_true] using hparts.2
  · rintro ⟨h1, h2, h3, h4⟩
    have hne : s ≠ "" := by
      intro he
      subst he
      exact h1 rfl
    have hie : (Api.jsTrim s).isEmpty = false := by
      cases hh : (Api.jsTrim s).isEmpty
      · rfl
      · exact absurd ((String.isEmpty_iff (Api.jsTrim s)).mp hh) h1
    have hse : s.isEmpty = false := by
      cases hh : s.isEmpty
      · rfl
      · exact absurd ((String.isEmpty_iff s).mp hh) hne
    have hpat : Api.usernamePatternTest s = true := by
      simp [Api.usernamePatternTest, hse, h4]
    simp only [Api.USERNAME_MIN_LENGTH] at h2
    simp only [Api.USERNAME_MAX_LENGTH] at h3
    unfold Api.validateUsername
    rw [if_neg (by simp [hie])]
    rw [if_neg (by simp only [Api.USERNAME_MIN_LENGTH]; omega)]
    rw [if_neg (by simp only [Api.USERNAME_MAX_LENGTH]; omega)]
    rw [if_neg (by simp [hpat])]

/-- Claim C8: `validateMediaFile` applies the size bound before the MIME
allow-list, and a type that is in no allow-list is measured against the
10MB image limit — so any input with a disallowed type and size over
10MB fails with the size-limit error, never the invalid-file-type
error. -/
theorem validateMediaFile_size_bound_before_type_check :
    ∀ (now : String) (urlOk : String → Bool) (input : Api.MediaUploadInput),
      (Api.ALLOWED_IMAGE_TYPES ++ Api.ALLOWED_VIDEO_TYPES).contains input.type = false →
      input.size > Api.MAX_FILE_SIZE →
      Api.validateMediaFile now urlOk input =
        .err (Api.validationError now "File size must not exceed 10.00MB" (some "media")) := by
  intro now urlOk input hty hsz
  have hv : Api.ALLOWED_VIDEO_TYPES.contains input.type = false := by
    cases h : Api.ALLOWED_VIDEO_TYPES.contains input.type
    · rfl
    · exfalso
      have hmem : input.type ∈ Api.ALLOWED_VIDEO_TYPES := by simpa using h
      have : input.type ∈ Api.ALLOWED_IMAGE_TYPES ++ Api.ALLOWED_VIDEO_TYPES :=
        List.mem_append_right _ hmem
      simp_all
  unfold Api.validateMediaFile
  simp only [hv, Bool.false_eq_true, if_false]
  rw [if_pos hsz]
  rfl

/-- Witness for the C8 theorem: a 20MB PDF upload. -/
theorem validateMediaFile_size_bound_witness :
    Api.validateMediaFile "2024-01-01T00:00:00.000Z" (fun _ => true)
      { uri := "https://example.com/doc.pdf", type := "application/pdf", name := "doc.pdf", size := 20 * 1024 * 1024 } =
    .err (Api.validationError "2024-01-01T00:00:00.000Z" "File size must not exceed 10.00MB" (some "media")) :=
  validateMediaFile_size_bound_before_type_check "2024-01-01T00:00:00.000Z" (fun _ => true)
    { uri := "https://example.com/doc.pdf", type := "application/pdf", name := "doc.pdf", size := 20 * 1024 * 1024 }
    (by decide) (by decide)

/-- Claim C9: `validateCreatePostInput` validates `media_url` only when
it is truthy — with valid content and an empty-string `media_url` the
composite succeeds with neither `media_url` nor `media_type` in the
result, even though `validateMediaUrl` itself rejects the empty string
as required; and whenever `media_url` is not truthy, the result carries
no `media_url` and no `media_type`. -/
theorem validateCreatePostInput_skips_empty_media_url :
    ∀ (now : String) (urlOk : String → Bool) (input : Api.CreatePostInput) (c : String),
      (Api.validatePostContent now input.content = .ok c →
        input.media_url = some "" →
        Api.validateCreatePostInput now urlOk input = .ok { content := c }) ∧
      (Api.validateMediaUrl now urlOk "" =
        .err (Api.validationError now "Media URL is required" (some "media_url"))) ∧
      (∀ v : Api.ValidatedCreatePostInput,
        Api.validateCreatePostInput now urlOk input = .ok v →
        Api.truthyString input.media_url = false →
        v.media_url = none ∧ v.media_type = none) := by
  intro now urlOk input c
  refine ⟨?_, ?_, ?_⟩
  · intro hc hm
    unfold Api.validateCreatePostInput
    rw [hc, hm]
    simp [Api.truthyString]
    intro h
    exact absurd h (by decide)
  · rfl
  · intro v hv hM
    unfold Api.validateCreatePostInput at hv
    cases hpc : Api.validatePostContent now input.content with
    | err e =>
      rw [hpc] at hv
      simp at hv
    | ok c2 =>
      rw [hpc] at hv
      rw [hM] at hv
      simp at hv
      rw [← hv]
      exact ⟨rfl, rfl⟩

/-- Witness for the C9 theorem: a post with valid content and an
empty-string media URL. -/
theorem validateCreatePostInput_skips_empty_media_url_witness :
    Api.validateCreatePostInput "2024-01-01T00:00:00.000Z" (fun _ => true)
      { content := "hello", media_url := some "" } = .ok { content := "hello" } ∧
    ({ content := "hello", media_url := none, media_type := none, thumbnail_url := none } :
      Api.ValidatedCreatePostInput).media_type = none := by
  constructor
  · exact (validateCreatePostInput_skips_empty_media_url "2024-01-01T00:00:00.000Z"
      (fun _ => true) { content := "hello", media_url := some "" } "hello").1 rfl rfl
  · rfl

/-- Every failure arm of a validator carries an error with the shape the
`validationError` factory produces: the validation code, a non-empty
message, the stamped timestamp, and a defined field name. -/
def failureWellFormed (now : String) {T : Type} : Api.Result T Api.ApiError → Prop
  | .err e => e.code = Api.ErrorCode.VALIDATION_ERROR ∧ e.message ≠ "" ∧
      e.field.isSome = true ∧ e.timestamp = now
  | .ok _ => True

/-- An error built by the `validationError` factory with a non-empty
message and a named field satisfies `failureWellFormed`. -/
theorem validationError_failureWellFormed {T : Type} (now msg fld : String)
    (h : msg ≠ "") :
    failureWellFormed now (T := T) (.err (Api.validationError now msg (some fld))) :=
  ⟨rfl, h, rfl, rfl⟩

/-- Claim C10: every failure arm returned by any field validator (email,
username, password, post content, comment content, bio, media URL, media
file, passwords-match) has code `VALIDATION_ERROR`, a non-empty message,
the stamped timestamp, and a defined field name. -/
theorem validator_failures_are_validation_errors :
    ∀ (now s p c : String) (urlOk : String → Bool) (f : Api.MediaUploadInput),
      failureWellFormed now (Api.validateEmail now s) ∧
      failureWellFormed now (Api.validateUsername now s) ∧
      failureWellFormed now (Api.validatePassword now s) ∧
      failureWellFormed now (Api.validatePostContent now s) ∧
      failureWellFormed now (Api.validateCommentContent now s) ∧
      failureWellFormed now (Api.validateBio now s) ∧
      failureWellFormed now (Api.validateMediaUrl now urlOk s) ∧
      failureWellFormed now (Api.validateMediaFile now urlOk f) ∧
      failureWellFormed now (Api.validatePasswordsMatch now p c) := by
  intro now s p c urlOk f
  have hurl : ∀ u : String, failureWellFormed now (Api.validateMediaUrl now urlOk u) := by
    intro u
    unfold Api.validateMediaUrl
    repeat' split
    all_goals
      first
        | exact trivial
        | exact validationError_failureWellFormed _ _ _ (by decide)
  refine ⟨?_, ?_, ?_, ?_, ?_, ?_, hurl s, ?_, ?_⟩
  · unfold Api.validateEmail
    repeat' split
    all_goals
      first
        | exact trivial
        | exact validationError_failureWellFormed _ _ _ (by decide)
  · unfold Api.validateUsername
    repeat' split
    all_goals
      first
        | exact trivial
        | exact validationError_failureWellFormed _ _ _ (by decide)
  · unfold Api.validatePassword
    dsimp only
    repeat' split
    all_goals
      first
        | exact trivial
        | exact validationError_failureWellFormed _ _ _ (by decide)
  · unfold Api.validatePostContent
    repeat' split
    all_goals
      first
        | exact trivial
        | exact validationError_failureWellFormed _ _ _ (by decide)
  · unfold Api.validateCommentContent
    repeat' split
    all_goals
      first
        | exact trivial
        | exact validationError_failureWellFormed _ _ _ (by decide)
  · unfold Api.validateBio
    repeat' split
    all_goals
      first
        | exact trivial
        | exact validationError_failureWellFormed _ _ _ (by decide)
  · unfold Api.validateMediaFile
    dsimp only
    repeat' split
    all_goals
      first
        | exact trivial
        | exact validationError_failureWellFormed _ _ _ (by decide)
        | (rename_i e heq
           have h2 := hurl f.uri
           rw [heq] at h2
           exact h2)
  · unfold Api.validatePasswordsMatch
    repeat' split
    all_goals
      first
        | exact trivial
        | exact validationError_failureWellFormed _ _ _ (by decide)
